import Mathlib

/-!
Verification of the Sengled local Home Assistant integration
(`custom_components/sengledapi`).  The embedding covers the unit
conversions, the bulb facade (`devices/bulbs/bulb.py`: setters,
`async_update`, `update_status`) and the session layer
(`sengledapi.py`: `publish_mqtt`, `async_get_devices_from_addon`).
Machine floats of the source are modelled by exact rationals, and
Python `round` by round-half-to-even; on every concrete value used in
a theorem below the float computation and the rational one agree.
-/

/-- Python `round` on an exact rational: nearest integer, ties to the
even neighbour (`⌊q⌋` when it is even, otherwise `⌊q⌋ + 1`). -/
def pyRound (q : ℚ) : ℤ :=
  if q - ⌊q⌋ < 1/2 then ⌊q⌋
  else if 1/2 < q - ⌊q⌋ then ⌊q⌋ + 1
  else if ⌊q⌋ % 2 = 0 then ⌊q⌋ else ⌊q⌋ + 1

theorem pyRound_sub_abs (q : ℚ) : |(pyRound q : ℚ) - q| ≤ 1/2 := by
  have h0 : ((⌊q⌋ : ℤ) : ℚ) ≤ q := Int.floor_le q
  have h1 : q < ⌊q⌋ + 1 := Int.lt_floor_add_one q
  unfold pyRound
  split_ifs with ha hb hc <;> rw [abs_le] <;> push_cast <;>
    constructor <;> linarith

theorem pyRound_intCast (n : ℤ) : pyRound (n : ℚ) = n := by
  unfold pyRound
  rw [Int.floor_intCast]
  norm_num

theorem pyRound_eq_of_intCast {q : ℚ} {n : ℤ} (h : q = (n : ℚ)) :
    pyRound q = n := by
  rw [h, pyRound_intCast]

/-- `Bulb.translate(value, left_min, left_max, right_min, right_max)`
from `bulb.py`: rescales `value` from the left range onto the right
range (the source's `left_span`/`right_span` locals are inlined). -/
def Bulb.translate (value left_min left_max right_min right_max : ℚ) : ℚ :=
  right_min + (value - left_min) / (left_max - left_min) * (right_max - right_min)

/-- The brightness conversion of `Bulb.async_set_brightness`:
`round((brightness / 255) * 100)`. -/
def brightness_to_device (b : ℤ) : ℤ := pyRound ((b : ℚ) / 255 * 100)

/-- The brightness conversion of `Bulb.async_update`:
`round((int(attrs["brightness"]) / 100) * 255)`. -/
def brightness_from_device (p : ℤ) : ℤ := pyRound ((p : ℚ) / 100 * 255)

/-- The colour-temperature conversion of `Bulb.async_color_temperature`:
`round(Bulb.translate(int(color_temperature), 200, 6500, 1, 100))`. -/
def kelvin_to_device (k : ℤ) : ℤ := pyRound (Bulb.translate (k : ℚ) 200 6500 1 100)

/-- The colour-temperature conversion of `Bulb.async_update`:
`round(Bulb.translate(temp_percent, 0, 100, 2000, 6500))`. -/
def kelvin_from_device (p : ℤ) : ℤ := pyRound (Bulb.translate (p : ℚ) 0 100 2000 6500)

theorem kelvin_from_device_int (p : ℤ) :
    kelvin_from_device p = 2000 + 45 * p := by
  unfold kelvin_from_device
  apply pyRound_eq_of_intCast
  unfold Bulb.translate
  push_cast
  ring

theorem kelvin_to_device_bounds (k : ℤ) (h1 : 200 ≤ k) (h2 : k ≤ 6500) :
    1 ≤ kelvin_to_device k ∧ kelvin_to_device k ≤ 100 := by
  have hq : Bulb.translate (k : ℚ) 200 6500 1 100 = 1 + ((k : ℚ) - 200) * (11/700) := by
    unfold Bulb.translate
    ring
  have hk0 : (0 : ℚ) ≤ (k : ℚ) - 200 := by
    have : (200 : ℚ) ≤ (k : ℚ) := by exact_mod_cast h1
    linarith
  have hk1 : (k : ℚ) - 200 ≤ 6300 := by
    have : (k : ℚ) ≤ 6500 := by exact_mod_cast h2
    linarith
  have hv1 : (1 : ℚ) ≤ 1 + ((k : ℚ) - 200) * (11/700) := by
    have := mul_nonneg hk0 (show (0 : ℚ) ≤ 11/700 by norm_num)
    linarith
  have hv2 : 1 + ((k : ℚ) - 200) * (11/700) ≤ 100 := by
    have := mul_le_mul_of_nonneg_right hk1 (show (0 : ℚ) ≤ 11/700 by norm_num)
    linarith
  have habs := pyRound_sub_abs (Bulb.translate (k : ℚ) 200 6500 1 100)
  rw [hq, abs_le] at habs
  unfold kelvin_to_device
  rw [hq]
  constructor
  · have hpos : (0 : ℚ) < (pyRound (1 + ((k : ℚ) - 200) * (11/700)) : ℚ) := by
      linarith
    have : (0 : ℤ) < pyRound (1 + ((k : ℚ) - 200) * (11/700)) := by
      exact_mod_cast hpos
    omega
  · have hlt : (pyRound (1 + ((k : ℚ) - 200) * (11/700)) : ℚ) < 101 := by
      linarith
    have : pyRound (1 + ((k : ℚ) - 200) * (11/700)) < (101 : ℤ) := by
      exact_mod_cast hlt
    omega

theorem brightness_roundtrip (p : ℤ) :
    brightness_to_device (brightness_from_device p) = p := by
  have hg : |(brightness_from_device p : ℚ) - (p : ℚ) / 100 * 255| ≤ 1/2 :=
    pyRound_sub_abs ((p : ℚ) / 100 * 255)
  have hf : |(brightness_to_device (brightness_from_device p) : ℚ)
      - (brightness_from_device p : ℚ) / 255 * 100| ≤ 1/2 :=
    pyRound_sub_abs ((brightness_from_device p : ℚ) / 255 * 100)
  have hgq : |(brightness_from_device p : ℚ) / 255 * 100 - (p : ℚ)| ≤ 10/51 := by
    have hexp : (brightness_from_device p : ℚ) / 255 * 100 - (p : ℚ)
        = ((brightness_from_device p : ℚ) - (p : ℚ) / 100 * 255) * (100 / 255) := by
      ring
    rw [hexp, abs_mul, abs_of_nonneg (show (0 : ℚ) ≤ 100/255 by norm_num)]
    calc |(brightness_from_device p : ℚ) - (p : ℚ) / 100 * 255| * (100 / 255)
        ≤ (1/2) * (100/255) :=
          mul_le_mul_of_nonneg_right hg (by norm_num)
      _ = 10/51 := by norm_num
  have habs : |(brightness_to_device (brightness_from_device p) : ℚ) - (p : ℚ)|
      ≤ 71/102 := by
    have htri := abs_sub_le
      ((brightness_to_device (brightness_from_device p) : ℚ))
      ((brightness_from_device p : ℚ) / 255 * 100) ((p : ℚ))
    linarith
  have hzq : ((|brightness_to_device (brightness_from_device p) - p| : ℤ) : ℚ)
      ≤ 71/102 := by
    push_cast
    exact habs
  have hlt : |brightness_to_device (brightness_from_device p) - p| < (1 : ℤ) := by
    have : ((|brightness_to_device (brightness_from_device p) - p| : ℤ) : ℚ) < 1 :=
      lt_of_le_of_lt hzq (by norm_num)
    exact_mod_cast this
  have := Int.abs_lt_one_iff.mp hlt
  omega

/-- Python values that can sit in a bulb field or travel in a status or
command message: the source stores ints, strings and `None` there. -/
inductive PyVal where
  | pyInt (n : ℤ)
  | pyStr (s : String)
  | pyNone
  deriving DecidableEq, Repr

/-- Python `str(value)` for the values above, as used by `publish_mqtt`. -/
def pyStrOf : PyVal → String
  | .pyInt n => toString n
  | .pyStr s => s
  | .pyNone => "None"

/-- Python `int(s)` on a string: optional sign followed by digits;
`none` models the `ValueError` raised on any other shape. -/
def pyIntOfStr (s : String) : Option ℤ :=
  match s.toList with
  | [] => none
  | c :: rest =>
    let sgn : ℤ := if c = '-' then -1 else 1
    let ds : List Char := if c = '-' ∨ c = '+' then rest else c :: rest
    if ds ≠ [] ∧ ds.all Char.isDigit then
      some (sgn * (ds.foldl (fun acc d => acc * 10 + ((d.toNat : ℤ) - 48)) 0))
    else none

/-- The mutable fields of a `Bulb` facade (`Bulb.__init__` in
`bulb.py`), together with the immutable identifier and capability
flags.  `color_mode` is `none` until `update_status` first assigns the
dynamically-created `_color_mode` attribute. -/
structure BulbState where
  device_mac : String
  friendly_name : String
  state : Bool
  available : Bool
  device_rssi : ℤ
  brightness : PyVal
  color : PyVal
  color_temperature : PyVal
  color_mode : Option PyVal
  firmware_version : Option String
  atomizer_switch : Option String
  atomizer_mode : Option String
  atomizer_sleep : Option String
  water_state : Option String
  support_color : Bool
  support_color_temp : Bool
  support_brightness : Bool
  deriving DecidableEq, Repr

/-- The `attributes` object of a `GET /api/device/{mac}` response, one
optional entry per key that `Bulb.async_update` reads. -/
structure DeviceAttrs where
  switch : Option String
  deviceRssi : Option String
  brightness : Option String
  colorTemperature : Option String
  color : Option String
  version : Option String
  atomizerSwitch : Option String
  atomizerMode : Option String
  atomizerSleep : Option String
  waterState : Option String
  deriving DecidableEq, Repr

/-- Outcome of the per-device HTTP GET in `Bulb.async_update`:
`fetchError` models an exception raised before attribute processing
(connection failure or an unparseable JSON body); otherwise the HTTP
status, the truthiness of the `success` flag, and the device
attributes when the `device` key is present. -/
inductive ApiResult where
  | fetchError
  | resp (status : ℕ) (success : Bool) (device : Option DeviceAttrs)
  deriving DecidableEq, Repr

/-- `self._device_rssi = int(attrs.get("deviceRssi", -50))`; `none`
models the `ValueError` of a non-numeric value. -/
def stepRssi (a : DeviceAttrs) (b : BulbState) : Option BulbState :=
  match a.deviceRssi with
  | none => some { b with device_rssi := -50 }
  | some s => (pyIntOfStr s).map fun n => { b with device_rssi := n }

/-- `if self._support_brightness and "brightness" in attrs:` followed by
`self._brightness = round((int(attrs["brightness"]) / 100) * 255)`. -/
def stepBrightness (a : DeviceAttrs) (b : BulbState) : Option BulbState :=
  if b.support_brightness then
    match a.brightness with
    | none => some b
    | some s => (pyIntOfStr s).map fun n =>
        { b with brightness := .pyInt (brightness_from_device n) }
  else some b

/-- `if self._support_color_temp and "colorTemperature" in attrs:`
followed by the `translate(temp_percent, 0, 100, 2000, 6500)` update. -/
def stepColorTemp (a : DeviceAttrs) (b : BulbState) : Option BulbState :=
  if b.support_color_temp then
    match a.colorTemperature with
    | none => some b
    | some s => (pyIntOfStr s).map fun n =>
        { b with color_temperature := .pyInt (kelvin_from_device n) }
  else some b

/-- `if self._support_color and "color" in attrs:` update. -/
def stepColor (a : DeviceAttrs) (b : BulbState) : BulbState :=
  if b.support_color then
    match a.color with
    | none => b
    | some s => { b with color := .pyStr s }
  else b

/-- The `version` update of `Bulb.async_update`. -/
def stepVersion (a : DeviceAttrs) (b : BulbState) : BulbState :=
  match a.version with
  | none => b
  | some s => { b with firmware_version := some s }

/-- The four atomizer/diffuser attribute updates of `Bulb.async_update`. -/
def stepAtomizer (a : DeviceAttrs) (b : BulbState) : BulbState :=
  let b1 := match a.atomizerSwitch with
    | none => b
    | some s => { b with atomizer_switch := some s }
  let b2 := match a.atomizerMode with
    | none => b1
    | some s => { b1 with atomizer_mode := some s }
  let b3 := match a.atomizerSleep with
    | none => b2
    | some s => { b2 with atomizer_sleep := some s }
  match a.waterState with
  | none => b3
  | some s => { b3 with water_state := some s }

/-- `Bulb.async_update` from `bulb.py`: on a 200 response whose body has
a truthy `success` and a `device` key, sets availability and walks the
attribute updates in source order; a `none` from a parsing step models
the `ValueError` raised there, caught by the outer handler which sets
`self._available = False` on the state reached so far.  Every other
outcome only clears availability. -/
def async_update (b : BulbState) (r : ApiResult) : BulbState :=
  match r with
  | .fetchError => { b with available := false }
  | .resp status success device =>
    if status = 200 then
      match success, device with
      | true, some attrs =>
        let b1 := { b with available := true }
        match stepRssi attrs b1 with
        | none => { b1 with available := false }
        | some b2 =>
          match stepBrightness attrs b2 with
          | none => { b2 with available := false }
          | some b3 =>
            match stepColorTemp attrs b3 with
            | none => { b3 with available := false }
            | some b4 => stepAtomizer attrs (stepVersion attrs (stepColor attrs b4))
      | _, _ => { b with available := false }
    else { b with available := false }

/-- One entry of the JSON array carried by a `wifielement/{mac}/status`
bus message; `dn` and `type` are optional because `Bulb.update_status`
skips entries missing either key. -/
structure StatusRecord where
  dn : Option String
  type : Option String
  value : PyVal
  deriving DecidableEq, Repr

/-- The per-entry body of the `for status in data:` loop of
`Bulb.update_status`: on a matching `dn`, each of the four `if`
statements assigns the raw `status["value"]` to its field. -/
def applyStatusRecord (b : BulbState) (st : StatusRecord) : BulbState :=
  match st.type, st.dn with
  | some t, some d =>
    if d = b.device_mac then
      let b1 := if t = "color" then { b with color := st.value } else b
      let b2 := if t = "colorMode" then { b1 with color_mode := some st.value } else b1
      let b3 := if t = "brightness" then { b2 with brightness := st.value } else b2
      if t = "colorTemperature" then { b3 with color_temperature := st.value } else b3
    else b
  | _, _ => b

/-- `Bulb.update_status`: `none` models a message whose JSON parse
raises `ValueError` (the method returns with no change); otherwise the
parsed array is folded entry by entry. -/
def update_status (b : BulbState) (msg : Option (List StatusRecord)) : BulbState :=
  match msg with
  | none => b
  | some data => data.foldl applyStatusRecord b

/-- A command handed to `SengledApi.publish_mqtt`: the device
identifier, the command kind, and the raw value argument. -/
structure PubCmd where
  dn : String
  cmdType : String
  value : PyVal
  deriving DecidableEq, Repr

/-- Python `onoff == "1"` of `Bulb.async_toggle` (only an equal string
compares equal; `1`, `"ON"`, `"true"`, … give `False`). -/
def pyEqStrOne : PyVal → Bool
  | .pyStr s => s = "1"
  | _ => false

/-- `Bulb.async_toggle(onoff)`: sets `_state` to the result of
`onoff == "1"` and publishes `(mac, "switch", onoff)`; returned as the
new state paired with the list of published commands. -/
def async_toggle (b : BulbState) (onoff : PyVal) : BulbState × List PubCmd :=
  ({ b with state := pyEqStrOne onoff }, [⟨b.device_mac, "switch", onoff⟩])

/-- `Bulb.async_set_brightness(brightness)`: publishes the converted
percentage and leaves every local field unchanged. -/
def async_set_brightness (b : BulbState) (brightness : ℤ) : BulbState × List PubCmd :=
  (b, [⟨b.device_mac, "brightness", .pyStr (toString (brightness_to_device brightness))⟩])

/-- `Bulb.async_color_temperature(color_temperature)`: publishes the
converted percentage and leaves every local field unchanged. -/
def async_color_temperature (b : BulbState) (ct : ℤ) : BulbState × List PubCmd :=
  (b, [⟨b.device_mac, "colorTemperature", .pyStr (toString (kelvin_to_device ct))⟩])

/-- `Bulb.convert_color_HA`: drops spaces and parentheses from
`str(HACOLOR)` and turns commas into colons. -/
def convert_color_HA (s : String) : String :=
  ((((s.replace " " "").replace "," ":").replace "(" "").replace ")" "")

/-- `Bulb.async_set_color(color)` applied to the stringified colour:
publishes the converted colour string and sets `_state = True`. -/
def async_set_color (b : BulbState) (color : String) : BulbState × List PubCmd :=
  ({ b with state := true }, [⟨b.device_mac, "color", .pyStr (convert_color_HA color)⟩])

/-- Behaviour of `r.wait_for_publish()` on the message handle returned
by the paho client: it returns, raises `ValueError`, or raises an
exception of some other class. -/
inductive WaitOutcome where
  | returns
  | raisesValueError
  | raisesOther
  deriving DecidableEq, Repr

/-- The part of `SESSION.mqtt_client` that `publish_mqtt` observes: how
the acknowledgment wait behaves and what the bus reports as the
published flag of the message handle afterwards. -/
structure MqttClient where
  wait : WaitOutcome
  is_published : Bool
  deriving DecidableEq, Repr

/-- One element of the JSON payload array built by `publish_mqtt`:
`{"dn": ..., "type": ..., "value": str(value), "time": epoch_millis}`. -/
structure PayloadEntry where
  dn : String
  type : String
  value : String
  time : ℤ
  deriving DecidableEq, Repr

/-- A message emitted on the bus: topic and the (structured) one-element
JSON array `json.dumps` serializes. -/
structure MqttMsg where
  topic : String
  payload : List PayloadEntry
  deriving DecidableEq, Repr

/-- `SengledApi.publish_mqtt(device_mac, command_type, value)` from
`sengledapi.py`, with the client state and the clock reading
`int(time.time() * 1000)` passed explicitly.  The first component is
`Except.error ()` when an exception escapes the method (only
`ValueError` is caught around `wait_for_publish`); the second is the
list of messages handed to the bus. -/
def publish_mqtt (client : Option MqttClient) (now : ℤ)
    (device_mac command_type : String) (value : PyVal) :
    Except Unit Bool × List MqttMsg :=
  match client with
  | none => (.ok false, [])
  | some c =>
    let topic := "wifielement/" ++ device_mac ++ "/update"
    let msg : MqttMsg := ⟨topic, [⟨device_mac, command_type, pyStrOf value, now⟩]⟩
    match c.wait with
    | .returns => (.ok c.is_published, [msg])
    | .raisesValueError => (.ok false, [msg])
    | .raisesOther => (.error (), [msg])

/-- One value of the `devices` object of a `GET /api/devices` response:
the capability list and the attribute object. -/
structure DeviceInfo where
  capabilities : List String
  attributes : List (String × String)
  deriving DecidableEq, Repr

/-- Outcome of the device-listing request in
`SengledApi.async_get_devices_from_addon`: a connection error, or the
HTTP status with the truthiness of `success` and the `devices` object
(`none` when the key is missing). -/
inductive DevicesResponse where
  | connError
  | resp (status : ℕ) (success : Bool) (devices : Option (List (String × DeviceInfo)))
  deriving DecidableEq, Repr

/-- The `bulb_data` dict built per device by
`async_get_devices_from_addon`: `deviceUuid` plus an `attributeList`
led by the joined capabilities as `supportAttributes`. -/
structure BulbData where
  deviceUuid : String
  attributeList : List (String × String)
  deriving DecidableEq, Repr

/-- The loop body converting one `devices` entry into `bulb_data`. -/
def toBulbData (mac : String) (info : DeviceInfo) : BulbData :=
  ⟨mac, ("supportAttributes", String.intercalate "," info.capabilities) :: info.attributes⟩

/-- `SengledApi.async_get_devices_from_addon`: on a 200 response whose
body has a truthy `success` and a `devices` key, clears and repopulates
`SESSION.devices`; every other outcome is only logged and the previous
list is returned. -/
def async_get_devices_from_addon (prev : List BulbData) (r : DevicesResponse) :
    List BulbData :=
  match r with
  | .connError => prev
  | .resp status success devices =>
    if status = 200 then
      match success, devices with
      | true, some ds => ds.map fun p => toBulbData p.1 p.2
      | _, _ => prev
    else prev

/-- A concrete bulb used by witnesses and counterexamples. -/
def sampleBulb : BulbState where
  device_mac := "AA:BB"
  friendly_name := "Lamp"
  state := true
  available := true
  device_rssi := -30
  brightness := .pyInt 255
  color := .pyStr "255:255:255"
  color_temperature := .pyNone
  color_mode := none
  firmware_version := none
  atomizer_switch := none
  atomizer_mode := none
  atomizer_sleep := none
  water_state := none
  support_color := true
  support_color_temp := true
  support_brightness := true

/-- A fully populated, well-formed attribute object whose switch
disagrees with `sampleBulb.state`. -/
def sampleAttrs : DeviceAttrs where
  switch := some "0"
  deviceRssi := some "-42"
  brightness := some "50"
  colorTemperature := some "40"
  color := some "10:20:30"
  version := some "V1.2"
  atomizerSwitch := some "on"
  atomizerMode := some "auto"
  atomizerSleep := some "0"
  waterState := some "ok"

/-- C1 counterexample: k = 200 lies in [200, 6500], but
`kelvin_from_device(kelvin_to_device(200))` is 2045, an error of 1845
Kelvin, because the two conversions use mismatched ranges. -/
theorem C1_kelvin_roundtrip_counterexample :
    (200 : ℤ) ≤ 200 ∧ (200 : ℤ) ≤ 6500 ∧
    kelvin_from_device (kelvin_to_device 200) = 2045 ∧
    ¬(|kelvin_from_device (kelvin_to_device 200) - 200| ≤ 1) := by
  have h1 : kelvin_to_device 200 = 1 := by
    norm_num [kelvin_to_device, Bulb.translate, pyRound]
  have h2 : kelvin_from_device 1 = 2045 := by
    norm_num [kelvin_from_device, Bulb.translate, pyRound]
  refine ⟨by norm_num, by norm_num, by rw [h1, h2], ?_⟩
  rw [h1, h2]
  norm_num

/-- C1 (amended): for every k in [200, 6500] the round trip equals
2000 + 45 · kelvin_to_device k and lies in [2045, 6500]; it is exact
only at the top of the range, not within 1 Kelvin of k in general. -/
theorem C1_kelvin_roundtrip_amended (k : ℤ) (h1 : 200 ≤ k) (h2 : k ≤ 6500) :
    kelvin_from_device (kelvin_to_device k) = 2000 + 45 * kelvin_to_device k ∧
    2045 ≤ kelvin_from_device (kelvin_to_device k) ∧
    kelvin_from_device (kelvin_to_device k) ≤ 6500 := by
  have heq := kelvin_from_device_int (kelvin_to_device k)
  have hb := kelvin_to_device_bounds k h1 h2
  refine ⟨heq, ?_, ?_⟩ <;> omega

/-- Witness for the amended C1 at k = 6500. -/
theorem C1_kelvin_roundtrip_amended_witness :
    (200 : ℤ) ≤ 6500 ∧ (6500 : ℤ) ≤ 6500 ∧
    (kelvin_from_device (kelvin_to_device 6500)
        = 2000 + 45 * kelvin_to_device 6500 ∧
      2045 ≤ kelvin_from_device (kelvin_to_device 6500) ∧
      kelvin_from_device (kelvin_to_device 6500) ≤ 6500) :=
  ⟨by norm_num, by norm_num,
    C1_kelvin_roundtrip_amended 6500 (by norm_num) (by norm_num)⟩

/-- C9: for brightness b in [0, 255], converting to a device
percentage, back to the 0–255 scale, and to a percentage again lands
within 1 unit of the first conversion (in fact they are equal). -/
theorem C9_brightness_roundtrip (b : ℤ) (h1 : 0 ≤ b) (h2 : b ≤ 255) :
    |brightness_to_device (brightness_from_device (brightness_to_device b))
      - brightness_to_device b| ≤ 1 := by
  rw [brightness_roundtrip (brightness_to_device b)]
  simp

/-- Witness for C9 at b = 128. -/
theorem C9_brightness_roundtrip_witness :
    (0 : ℤ) ≤ 128 ∧ (128 : ℤ) ≤ 255 ∧
    |brightness_to_device (brightness_from_device (brightness_to_device 128))
      - brightness_to_device 128| ≤ 1 :=
  ⟨by norm_num, by norm_num,
    C9_brightness_roundtrip 128 (by norm_num) (by norm_num)⟩

/-- C10: `async_toggle` sets the local on/off state to true exactly
when the argument is the string "1" — any other value, including an
integer — and publishes the argument verbatim as the switch value. -/
theorem C10_toggle_semantics (b : BulbState) (onoff : PyVal) :
    ((async_toggle b onoff).1.state = true ↔ onoff = .pyStr "1") ∧
    (async_toggle b onoff).1 = { b with state := pyEqStrOne onoff } ∧
    (async_toggle b onoff).2 = [⟨b.device_mac, "switch", onoff⟩] := by
  refine ⟨?_, rfl, rfl⟩
  cases onoff <;> simp [async_toggle, pyEqStrOne]

/-- C3 counterexample: commanding brightness 10 publishes the converted
percentage but leaves the whole local state — in particular the
brightness field — unchanged, so no optimistic update happens. -/
theorem C3_optimistic_update_counterexample :
    (async_set_brightness sampleBulb 10).1 = sampleBulb ∧
    (async_set_brightness sampleBulb 10).2
      = [⟨"AA:BB", "brightness", .pyStr "4"⟩] ∧
    (async_set_brightness sampleBulb 10).1.brightness ≠ .pyInt 10 := by
  have h4 : brightness_to_device 10 = 4 := by
    norm_num [brightness_to_device, pyRound]
  refine ⟨rfl, ?_, by decide⟩
  simp [async_set_brightness, h4, sampleBulb]
  decide

/-- C3 (amended): toggle and set-color publish and optimistically
update only the on/off flag; set-brightness and set-color-temperature
publish the converted value and update no local field. -/
theorem C3_setters_amended (b : BulbState) (onoff : PyVal) (br ct : ℤ) (col : String) :
    ((async_toggle b onoff).1 = { b with state := pyEqStrOne onoff } ∧
      (async_toggle b onoff).2 = [⟨b.device_mac, "switch", onoff⟩]) ∧
    ((async_set_brightness b br).1 = b ∧
      (async_set_brightness b br).2
        = [⟨b.device_mac, "brightness", .pyStr (toString (brightness_to_device br))⟩]) ∧
    ((async_color_temperature b ct).1 = b ∧
      (async_color_temperature b ct).2
        = [⟨b.device_mac, "colorTemperature", .pyStr (toString (kelvin_to_device ct))⟩]) ∧
    ((async_set_color b col).1 = { b with state := true } ∧
      (async_set_color b col).2
        = [⟨b.device_mac, "color", .pyStr (convert_color_HA col)⟩]) :=
  ⟨⟨rfl, rfl⟩, ⟨rfl, rfl⟩, ⟨rfl, rfl⟩, ⟨rfl, rfl⟩⟩

theorem stepColor_brightness (a : DeviceAttrs) (s : BulbState) :
    (stepColor a s).brightness = s.brightness := by
  unfold stepColor
  cases a.color <;> by_cases h : s.support_color = true <;> simp [h]

theorem stepVersion_brightness (a : DeviceAttrs) (s : BulbState) :
    (stepVersion a s).brightness = s.brightness := by
  unfold stepVersion
  cases a.version <;> simp

theorem stepAtomizer_brightness (a : DeviceAttrs) (s : BulbState) :
    (stepAtomizer a s).brightness = s.brightness := by
  unfold stepAtomizer
  cases a.atomizerSwitch <;> cases a.atomizerMode <;>
    cases a.atomizerSleep <;> cases a.waterState <;> simp

/-- C2: a successful refresh whose switch attribute disagrees with the
locally tracked on/off state leaves that state exactly as set, while
availability, RSSI, brightness, colour temperature, colour, firmware
version and the auxiliary attributes are all taken from the response. -/
theorem C2_local_wins (b : BulbState) (a : DeviceAttrs)
    (rs bs cs col ver a1 a2 a3 a4 : String) (rn bn cn : ℤ)
    (hrs : a.deviceRssi = some rs) (hrn : pyIntOfStr rs = some rn)
    (hsb : b.support_brightness = true)
    (hbs : a.brightness = some bs) (hbn : pyIntOfStr bs = some bn)
    (hst : b.support_color_temp = true)
    (hcs : a.colorTemperature = some cs) (hcn : pyIntOfStr cs = some cn)
    (hsc : b.support_color = true) (hcol : a.color = some col)
    (hver : a.version = some ver)
    (ha1 : a.atomizerSwitch = some a1) (ha2 : a.atomizerMode = some a2)
    (ha3 : a.atomizerSleep = some a3) (ha4 : a.waterState = some a4)
    (hmis : (a.switch == some "1") ≠ b.state) :
    (async_update b (.resp 200 true (some a))).state = b.state ∧
    (async_update b (.resp 200 true (some a))).available = true ∧
    (async_update b (.resp 200 true (some a))).device_rssi = rn ∧
    (async_update b (.resp 200 true (some a))).brightness
      = .pyInt (brightness_from_device bn) ∧
    (async_update b (.resp 200 true (some a))).color_temperature
      = .pyInt (kelvin_from_device cn) ∧
    (async_update b (.resp 200 true (some a))).color = .pyStr col ∧
    (async_update b (.resp 200 true (some a))).firmware_version = some ver ∧
    (async_update b (.resp 200 true (some a))).atomizer_switch = some a1 ∧
    (async_update b (.resp 200 true (some a))).atomizer_mode = some a2 ∧
    (async_update b (.resp 200 true (some a))).atomizer_sleep = some a3 ∧
    (async_update b (.resp 200 true (some a))).water_state = some a4 := by
  simp [async_update, stepRssi, stepBrightness, stepColorTemp, stepColor,
    stepVersion, stepAtomizer, hrs, hrn, hsb, hbs, hbn, hst, hcs, hcn,
    hsc, hcol, hver, ha1, ha2, ha3, ha4]

/-- Witness for C2 on `sampleBulb` and `sampleAttrs`. -/
theorem C2_local_wins_witness :
    (async_update sampleBulb (.resp 200 true (some sampleAttrs))).state
        = sampleBulb.state ∧
    (async_update sampleBulb (.resp 200 true (some sampleAttrs))).available = true ∧
    (async_update sampleBulb (.resp 200 true (some sampleAttrs))).device_rssi = -42 ∧
    (async_update sampleBulb (.resp 200 true (some sampleAttrs))).brightness
      = .pyInt (brightness_from_device 50) ∧
    (async_update sampleBulb (.resp 200 true (some sampleAttrs))).color_temperature
      = .pyInt (kelvin_from_device 40) ∧
    (async_update sampleBulb (.resp 200 true (some sampleAttrs))).color
      = .pyStr "10:20:30" ∧
    (async_update sampleBulb (.resp 200 true (some sampleAttrs))).firmware_version
      = some "V1.2" ∧
    (async_update sampleBulb (.resp 200 true (some sampleAttrs))).atomizer_switch
      = some "on" ∧
    (async_update sampleBulb (.resp 200 true (some sampleAttrs))).atomizer_mode
      = some "auto" ∧
    (async_update sampleBulb (.resp 200 true (some sampleAttrs))).atomizer_sleep
      = some "0" ∧
    (async_update sampleBulb (.resp 200 true (some sampleAttrs))).water_state
      = some "ok" :=
  C2_local_wins sampleBulb sampleAttrs "-42" "50" "40" "10:20:30" "V1.2"
    "on" "auto" "0" "ok" (-42) 50 40 rfl (by decide) rfl rfl (by decide) rfl
    rfl (by decide) rfl rfl rfl rfl rfl rfl rfl (by decide)

/-- A 200/success attribute object whose brightness is non-numeric, so
processing raises after the RSSI assignment. -/
def badAttrs : DeviceAttrs where
  switch := some "1"
  deviceRssi := some "-40"
  brightness := some "abc"
  colorTemperature := none
  color := none
  version := none
  atomizerSwitch := none
  atomizerMode := none
  atomizerSleep := none
  waterState := none

/-- C8 counterexample: a successful response with a non-numeric
brightness raises during attribute processing; the device is marked
unavailable, but the already-applied RSSI update (-40) survives, so not
every other field retains its previous value (-30). -/
theorem C8_atomic_failure_counterexample :
    (async_update sampleBulb (.resp 200 true (some badAttrs))).available = false ∧
    (async_update sampleBulb (.resp 200 true (some badAttrs))).device_rssi = -40 ∧
    sampleBulb.device_rssi = -30 ∧
    (async_update sampleBulb (.resp 200 true (some badAttrs))).device_rssi
      ≠ sampleBulb.device_rssi := by
  refine ⟨?_, ?_, rfl, ?_⟩ <;> decide

/-- C8 (amended): a failure before attribute processing — a non-200
status, a falsy success flag, a missing device key, or an error raised
during the request or JSON parse — marks the device unavailable and
leaves every other field unchanged; an error raised during attribute
processing also marks it unavailable but keeps field updates already
applied before the raise. -/
theorem C8_unavailable_amended (b : BulbState) (r : ApiResult)
    (h : r = .fetchError ∨ (∃ st su dv, r = .resp st su dv ∧ st ≠ 200) ∨
         (∃ st dv, r = .resp st false dv) ∨ (∃ st su, r = .resp st su none)) :
    async_update b r = { b with available := false } := by
  rcases h with h | ⟨st, su, dv, rfl, hne⟩ | ⟨st, dv, rfl⟩ | ⟨st, su, rfl⟩
  · rw [h]
    rfl
  · simp [async_update, hne]
  · by_cases hst : st = 200 <;> cases dv <;> simp [async_update, hst]
  · cases su <;> by_cases hst : st = 200 <;> simp [async_update, hst]

/-- Witness for the amended C8: a 404 response leaves everything but
availability unchanged. -/
theorem C8_unavailable_amended_witness :
    async_update sampleBulb (.resp 404 true (some sampleAttrs))
      = { sampleBulb with available := false } :=
  C8_unavailable_amended sampleBulb (.resp 404 true (some sampleAttrs))
    (Or.inr (Or.inl ⟨404, true, some sampleAttrs, rfl, by decide⟩))

/-- C4 counterexample: a brightness status record arriving on the bus
for the matching device is stored verbatim as the string "50", not
converted to the 0–255 scale (which would give 128). -/
theorem C4_bus_brightness_counterexample :
    (update_status sampleBulb
        (some [⟨some "AA:BB", some "brightness", .pyStr "50"⟩])).brightness
      = .pyStr "50" ∧
    brightness_from_device 50 = 128 ∧
    (update_status sampleBulb
        (some [⟨some "AA:BB", some "brightness", .pyStr "50"⟩])).brightness
      ≠ .pyInt 128 := by
  refine ⟨by decide, ?_, by decide⟩
  norm_num [brightness_from_device, pyRound]

/-- C4 (amended): `async_update` converts a polled brightness from the
device percentage scale to 0–255 before storing it, but a brightness
status record arriving on the bus is stored verbatim by
`update_status`, with no conversion at that boundary. -/
theorem C4_translation_amended (b : BulbState) (v : PyVal) (a : DeviceAttrs)
    (bs : String) (bn : ℤ)
    (hsb : b.support_brightness = true)
    (hbs : a.brightness = some bs) (hbn : pyIntOfStr bs = some bn)
    (hrs : a.deviceRssi = none) (hct : a.colorTemperature = none) :
    (update_status b
        (some [⟨some b.device_mac, some "brightness", v⟩])).brightness = v ∧
    (async_update b (.resp 200 true (some a))).brightness
      = .pyInt (brightness_from_device bn) := by
  constructor
  · simp [update_status, applyStatusRecord]
  · simp [async_update, stepRssi, hrs, stepBrightness, hsb, hbs, hbn,
      stepColorTemp, hct, stepColor_brightness, stepVersion_brightness,
      stepAtomizer_brightness]

/-- A bus-style attribute object for the C4 witness: brightness only. -/
def busAttrs : DeviceAttrs where
  switch := none
  deviceRssi := none
  brightness := some "50"
  colorTemperature := none
  color := none
  version := none
  atomizerSwitch := none
  atomizerMode := none
  atomizerSleep := none
  waterState := none

/-- Witness for the amended C4 on `sampleBulb` and `busAttrs`. -/
theorem C4_translation_amended_witness :
    (update_status sampleBulb
        (some [⟨some sampleBulb.device_mac, some "brightness", .pyStr "77"⟩])).brightness
      = .pyStr "77" ∧
    (async_update sampleBulb (.resp 200 true (some busAttrs))).brightness
      = .pyInt (brightness_from_device 50) :=
  C4_translation_amended sampleBulb (.pyStr "77") busAttrs "50" 50
    rfl rfl (by decide) rfl rfl

/-- C5 counterexample: when the acknowledgment wait raises an exception
that is not a `ValueError`, `publish_mqtt` does not return false — the
exception escapes (only `ValueError` is caught). -/
theorem C5_publish_raise_counterexample :
    (publish_mqtt (some ⟨.raisesOther, true⟩) 0 "AA:BB" "switch" (.pyStr "1")).1
      = .error () ∧
    (publish_mqtt (some ⟨.raisesOther, true⟩) 0 "AA:BB" "switch" (.pyStr "1")).1
      ≠ .ok false :=
  ⟨rfl, fun h => Except.noConfusion h⟩

/-- C5 (amended): publish returns false and does not raise when the
connection is absent or when the wait raises `ValueError`; when the
wait returns, it returns the bus's published flag, hence true only when
the bus reports the message published.  An exception of any other class
from the wait propagates instead of yielding false. -/
theorem C5_publish_errors_amended (now : ℤ) (mac t : String) (v : PyVal) (flag : Bool) :
    (publish_mqtt none now mac t v).1 = .ok false ∧
    (publish_mqtt (some ⟨.raisesValueError, flag⟩) now mac t v).1 = .ok false ∧
    (publish_mqtt (some ⟨.returns, flag⟩) now mac t v).1 = .ok flag ∧
    ((publish_mqtt (some ⟨.returns, flag⟩) now mac t v).1 = .ok true ↔ flag = true) := by
  refine ⟨rfl, rfl, rfl, ?_⟩
  cases flag <;> simp [publish_mqtt]

/-- C6: with a live connection, publish emits exactly one message, on
topic `wifielement/{mac}/update`, whose payload is the one-element
array `[{dn, type, value, time}]`; in particular
`publish("AA:BB", "switch", "1")` carries dn "AA:BB", type "switch",
value "1" and the numeric time field. -/
theorem C6_publish_payload (c : MqttClient) (now : ℤ) (mac t : String) (v : PyVal) :
    (publish_mqtt (some c) now mac t v).2
      = [⟨"wifielement/" ++ mac ++ "/update", [⟨mac, t, pyStrOf v, now⟩]⟩] ∧
    (publish_mqtt (some c) 1700000000000 "AA:BB" "switch" (.pyStr "1")).2
      = [⟨"wifielement/AA:BB/update", [⟨"AA:BB", "switch", "1", 1700000000000⟩]⟩] := by
  cases c with
  | mk w p => cases w <;> exact ⟨rfl, rfl⟩

/-- C7: `async_get_devices_from_addon` replaces the device list only on
a 200 response with a truthy success flag and a devices key; a
connection error, a non-200 status, a falsy success flag, or a missing
devices key leaves the previous list untouched — never a partial merge. -/
theorem C7_device_list_replace (prev : List BulbData) (st1 st2 : ℕ) (success : Bool)
    (devices : Option (List (String × DeviceInfo)))
    (ds : List (String × DeviceInfo)) (hne : st1 ≠ 200) :
    async_get_devices_from_addon prev .connError = prev ∧
    async_get_devices_from_addon prev (.resp st1 success devices) = prev ∧
    async_get_devices_from_addon prev (.resp st2 false devices) = prev ∧
    async_get_devices_from_addon prev (.resp st2 success none) = prev ∧
    async_get_devices_from_addon prev (.resp 200 true (some ds))
      = ds.map (fun p => toBulbData p.1 p.2) := by
  refine ⟨rfl, ?_, ?_, ?_, rfl⟩
  · simp [async_get_devices_from_addon, hne]
  · by_cases h : st2 = 200 <;> cases devices <;> simp [async_get_devices_from_addon, h]
  · cases success <;> by_cases h : st2 = 200 <;> simp [async_get_devices_from_addon, h]

/-- Witness for C7 with a 404 status and one devices entry. -/
theorem C7_device_list_replace_witness :
    (404 : ℕ) ≠ 200 ∧
    (async_get_devices_from_addon [] .connError = [] ∧
      async_get_devices_from_addon [] (.resp 404 true none) = [] ∧
      async_get_devices_from_addon [] (.resp 200 false none) = [] ∧
      async_get_devices_from_addon [] (.resp 200 true none) = [] ∧
      async_get_devices_from_addon []
          (.resp 200 true (some [("AA:BB", ⟨["brightness"], [("switch", "1")]⟩)]))
        = [⟨"AA:BB", [("supportAttributes", "brightness"), ("switch", "1")]⟩]) :=
  ⟨by decide, C7_device_list_replace [] 404 200 true none
    [("AA:BB", ⟨["brightness"], [("switch", "1")]⟩)] (by decide)⟩
